import Mathlib

/-!
Verification of the hello-canton frontend API client and dashboard.

The JavaScript sources (src/frontend/src/services/damlApi.js and
src/frontend/src/App.js) are shallowly embedded as explicit
world-passing functions: a World holds the DamlApi instance fields, the
browser localStorage, the stream of HTTP responses the network will
deliver (in order of the fetches the code performs), and the log of HTTP
requests issued so far.  A JavaScript async function that may throw
becomes a function World -> Except String A × World, where the error
carries the thrown Error message.  JavaScript truthiness of strings and
of possibly-null values is modelled explicitly (jsTruthy).
-/

/-- JS String.prototype.includes, implemented structurally over the
character list so that concrete instances reduce in the kernel. -/
def charListIsPrefix : List Char → List Char → Bool
  | [], _ => true
  | _ :: _, [] => false
  | a :: as, b :: bs => a == b && charListIsPrefix as bs

/-- Substring search over character lists (needle, then haystack suffixes). -/
def charListContains : List Char → List Char → Bool
  | hay, needle =>
    charListIsPrefix needle hay ||
      match hay with
      | [] => false
      | _ :: t => charListContains t needle

/-- JS s.includes(sub). -/
def jsIncludes (s sub : String) : Bool :=
  charListContains s.data sub.data

/-- JS s.split(c) for a one-character separator. -/
def jsSplitChar (sep : Char) : List Char → List (List Char)
  | [] => [[]]
  | c :: cs =>
    let r := jsSplitChar sep cs
    if c == sep then [] :: r
    else
      match r with
      | h :: t => (c :: h) :: t
      | [] => [[c]]

/-- JS s.toLowerCase() (ASCII, as Char.toLower). -/
def jsToLower (s : String) : List Char :=
  s.data.map Char.toLower

/-- JS a.toLowerCase().startsWith(b.toLowerCase()). -/
def jsLowerStartsWith (a b : String) : Bool :=
  charListIsPrefix (jsToLower b) (jsToLower a)

/-- JS truthiness of a string-or-null value: null and the empty string
are falsy, every other string is truthy. -/
def jsTruthy : Option String → Bool
  | none => false
  | some s => !s.isEmpty

/-- JS template-literal rendering of a string-or-null value. -/
def jsStr : Option String → String
  | some s => s
  | none => "null"

/-- JS String(x) for a possibly-undefined value (localStorage.setItem
stringifies undefined to "undefined"). -/
def jsUndef : Option String → String
  | some s => s
  | none => "undefined"

/-- A party returned by the /v1/parties endpoint; displayName and
identifier may each be absent in the JSON. -/
structure Party where
  displayName : Option String
  identifier : Option String
deriving DecidableEq, Repr

/-- An active contract as returned by /v1/query; only the fields the
client reads are modelled. -/
structure Contract where
  contractId : String
  templateId : Option String
deriving DecidableEq, Repr

/-- The payload built by createContract callers: the SimpleToken record
with the amount already stringified (amount.toString()). -/
structure Payload where
  issuer : String
  owner : String
  amount : String
deriving DecidableEq, Repr

/-- The JSON body of an HTTP response, partitioned by the shapes the
client actually reads; a result field of the wrong shape reads as
absent, matching the data.result-or-empty defaulting in the code. -/
inductive JsonVal where
  | jnull
  | jparties (result : List Party)
  | jcontracts (result : List Contract)
  | jpackages (result : List String)
deriving DecidableEq, Repr

/-- data.result || [] for a contracts response. -/
def jContracts : JsonVal → List Contract
  | .jcontracts cs => cs
  | _ => []

/-- data.result || [] for a parties response. -/
def jParties : JsonVal → List Party
  | .jparties ps => ps
  | _ => []

/-- data.result || [] for a packages response. -/
def jPackages : JsonVal → List String
  | .jpackages ps => ps
  | _ => []

/-- The body of an HTTP request issued by the client. -/
inductive ReqBody where
  | noBody
  | queryB (templateIds : List String)
  | createB (templateId : String) (payload : Payload)
  | exerciseB (contractId choice argument : String)
deriving DecidableEq, Repr

/-- An HTTP request: path under the gateway, method, Authorization
header, and body. -/
structure Request where
  path : String
  method : String
  auth : Option String
  body : ReqBody
deriving DecidableEq, Repr

/-- One network response: either the fetch promise rejects (net), or an
HTTP response arrives with ok status, raw text and parsed JSON. -/
inductive Response where
  | net
  | http (ok : Bool) (text : String) (json : JsonVal)
deriving DecidableEq, Repr

/-- The resolved view of a delivered HTTP response. -/
structure HttpResp where
  ok : Bool
  text : String
  json : JsonVal
deriving DecidableEq, Repr

/-- Browser localStorage as an association list. -/
abbrev Storage := List (String × String)

/-- localStorage.getItem. -/
def getItem (st : Storage) (k : String) : Option String :=
  (List.find? (fun e => e.1 == k) st).map (fun e => e.2)

/-- localStorage.setItem. -/
def setItem (st : Storage) (k v : String) : Storage :=
  (k, v) :: List.filter (fun e => !(e.1 == k)) st

/-- localStorage.removeItem. -/
def removeItem (st : Storage) (k : String) : Storage :=
  List.filter (fun e => !(e.1 == k)) st

/-- The DamlApi instance fields plus localStorage. -/
structure ClientState where
  token : Option String
  userId : Option String
  partyIdentifier : Option String
  storage : Storage
deriving DecidableEq, Repr

/-- The world a run threads: client state, the responses the network
will deliver to successive fetches, and the log of requests issued. -/
structure World where
  cs : ClientState
  pending : List Response
  log : List Request
deriving DecidableEq, Repr

/-- The message of the error a rejected fetch promise throws. -/
def fetchFailMsg : String := "Failed to fetch"

/-- JS fetch: logs the request, consumes the next pending response;
an exhausted stream or a net response makes the promise reject. -/
def fetch (req : Request) (w : World) : Except String HttpResp × World :=
  match w.pending with
  | [] => (.error fetchFailMsg, { w with log := w.log ++ [req] })
  | .net :: rest =>
      (.error fetchFailMsg, { w with pending := rest, log := w.log ++ [req] })
  | .http ok text json :: rest =>
      (.ok ⟨ok, text, json⟩, { w with pending := rest, log := w.log ++ [req] })

/-- The GET /v1/parties request with an explicit Authorization value. -/
def partiesRequest (auth : String) : Request :=
  ⟨"/v1/parties", "GET", some auth, .noBody⟩

/-- The GET /v1/packages request (Authorization: Bearer this.token). -/
def packagesRequest (tok : Option String) : Request :=
  ⟨"/v1/packages", "GET", some ("Bearer " ++ jsStr tok), .noBody⟩

/-- A POST /v1/query request (Authorization: Bearer this.token). -/
def queryRequest (tok : Option String) (templateIds : List String) : Request :=
  ⟨"/v1/query", "POST", some ("Bearer " ++ jsStr tok), .queryB templateIds⟩

/-- A POST /v1/create request (Authorization: Bearer this.token). -/
def createRequest (tok : Option String) (templateId : String) (payload : Payload) : Request :=
  ⟨"/v1/create", "POST", some ("Bearer " ++ jsStr tok), .createB templateId payload⟩

/-- A POST /v1/exercise request (Authorization: Bearer this.token). -/
def exerciseRequest (tok : Option String) (contractId choice argument : String) : Request :=
  ⟨"/v1/exercise", "POST", some ("Bearer " ++ jsStr tok),
    .exerciseB contractId choice argument⟩

/-- Sets the daml_package_id localStorage entry. -/
def setPkgItem (p : String) (w : World) : World :=
  { w with cs := { w.cs with storage := setItem w.cs.storage "daml_package_id" p } }

/-- Removes the daml_package_id localStorage entry. -/
def removePkgItem (w : World) : World :=
  { w with cs := { w.cs with storage := removeItem w.cs.storage "daml_package_id" } }

/-- DamlApi.login, lines 27-85: fetch /v1/parties with Bearer userId,
find the party whose displayName matches case-insensitively or whose
identifier starts with the userId, build a JWT, test it against
/v1/parties, and only then store token, userId and party identifier in
the instance and in localStorage.  The surrounding try/catch only logs
and rethrows, so it is omitted.  createSimpleJWT (base64 of a JSON
header and payload carrying Date.now()) is passed in as mkJwt, since no
claim inspects the token text and the timestamp is nondeterministic. -/
def matchesUser (userId : String) (p : Party) : Bool :=
  (match p.displayName with
   | some d => jsToLower d == jsToLower userId
   | none => false) ||
  (match p.identifier with
   | some i => jsLowerStartsWith i userId
   | none => false)

/-- DamlApi.login (see matchesUser above for the party predicate). -/
def login (mkJwt : String → Option String → String) (userId : String)
    (w : World) : Except String String × World :=
  match fetch (partiesRequest ("Bearer " ++ userId)) w with
  | (.error e, w1) => (.error e, w1)
  | (.ok resp, w1) =>
    if !resp.ok then
      (.error "Failed to fetch parties. Make sure the JSON API is running.", w1)
    else
      match List.find? (matchesUser userId) (jParties resp.json) with
      | none => (.error ("Party not found for userId: " ++ userId), w1)
      | some userParty =>
        match fetch (partiesRequest ("Bearer " ++ mkJwt userId userParty.identifier)) w1 with
        | (.error e, w2) => (.error e, w2)
        | (.ok test, w2) =>
          if !test.ok then
            (.error ("Authentication failed: " ++ test.text), w2)
          else
            (.ok (mkJwt userId userParty.identifier),
             { w2 with cs :=
                { token := some (mkJwt userId userParty.identifier)
                  userId := some userId
                  partyIdentifier := userParty.identifier
                  storage :=
                    setItem
                      (setItem
                        (setItem w2.cs.storage "daml_token"
                          (mkJwt userId userParty.identifier))
                        "daml_user_id" userId)
                      "daml_party_identifier" (jsUndef userParty.identifier) } })

/-- DamlApi.logout, lines 87-94. -/
def logout (w : World) : World :=
  { w with cs :=
      { token := none
        userId := none
        partyIdentifier := none
        storage :=
          removeItem
            (removeItem (removeItem w.cs.storage "daml_token") "daml_user_id")
            "daml_party_identifier" } }

/-- DamlApi.isAuthenticated, lines 398-400 (double negation of the token). -/
def isAuthenticated (cs : ClientState) : Bool :=
  jsTruthy cs.token

/-- DamlApi.getPackages, lines 96-114. -/
def getPackages (w : World) : Except String JsonVal × World :=
  if !(jsTruthy w.cs.token) then (.error "Not authenticated", w)
  else
    match fetch (packagesRequest w.cs.token) w with
    | (.error e, w1) => (.error e, w1)
    | (.ok resp, w1) =>
      if !resp.ok then (.error ("Failed to fetch packages: " ++ resp.text), w1)
      else (.ok resp.json, w1)

/-- Lines 141-150 of findPackageId: the first contract whose truthy
templateId splits on the colon into three parts with SimpleToken in the
middle yields its package-id part. -/
def extractPkg (c : Contract) : Option String :=
  match c.templateId with
  | none => none
  | some tid =>
    if tid.isEmpty then none
    else
      match jsSplitChar ':' tid.data with
      | [p0, p1, _] =>
        if p1 == "SimpleToken".data then some (String.mk p0) else none
      | _ => none

/-- Lines 161-186 of findPackageId: probe each candidate package id with
a /v1/query for candidate:SimpleToken:SimpleToken; accept (and cache)
the first candidate whose response is ok or whose error text mentions
neither Cannot resolve nor unknownTemplateIds; a rejected fetch just
moves on to the next candidate. -/
def probePackages : List String → World → Except String (Option String) × World
  | [], w => (.ok none, w)
  | packageId :: rest, w =>
    match fetch (queryRequest w.cs.token [packageId ++ ":SimpleToken:SimpleToken"]) w with
    | (.error _, w1) => probePackages rest w1
    | (.ok resp, w1) =>
      if resp.ok ||
          (!(jsIncludes resp.text "Cannot resolve") &&
           !(jsIncludes resp.text "unknownTemplateIds")) then
        (.ok (some packageId), setPkgItem packageId w1)
      else probePackages rest w1

/-- The try block of findPackageId, lines 124-188: query all contracts,
extract a package id from an existing SimpleToken contract if possible,
otherwise list the packages and probe each candidate; ends with null
when the candidates are exhausted. -/
def findPackageIdBody (w : World) : Except String (Option String) × World :=
  match fetch (queryRequest w.cs.token []) w with
  | (.error e, w1) => (.error e, w1)
  | (.ok resp, w1) =>
    match (if resp.ok then List.findSome? extractPkg (jContracts resp.json) else none) with
    | some packageId => (.ok (some packageId), setPkgItem packageId w1)
    | none =>
      match getPackages w1 with
      | (.error e, w2) => (.error e, w2)
      | (.ok packagesData, w2) => probePackages (jPackages packagesData) w2

/-- DamlApi.findPackageId, lines 116-193: return the cached package id
when one is stored (truthy), otherwise run the discovery body with every
thrown error caught and turned into null. -/
def findPackageId (w : World) : Except String (Option String) × World :=
  if jsTruthy (getItem w.cs.storage "daml_package_id") then
    (.ok (getItem w.cs.storage "daml_package_id"), w)
  else
    match findPackageIdBody w with
    | (.ok r, w1) => (.ok r, w1)
    | (.error _, w1) => (.ok none, w1)

/-- The client-side fallback filter of queryContracts, lines 253-258. -/
def fallbackFilter (c : Contract) : Bool :=
  let tid := (c.templateId).getD ""
  jsIncludes tid "SimpleToken" || jsIncludes tid "Escrow" ||
    jsIncludes tid "CollateralLock"

/-- Lines 200-219 of queryContracts: with empty templateIds resolve a
package id via findPackageId and build the three qualified template ids
when one is found (or fall back to an empty list); non-empty templateIds
pass through unchanged. -/
def queryTemplateIds (templateIds : List String) (w : World) :
    Except String (List String) × World :=
  if templateIds.isEmpty then
    match findPackageId w with
    | (.error e, w1) => (.error e, w1)
    | (.ok pid, w1) =>
      if jsTruthy pid then
        (.ok [jsStr pid ++ ":SimpleToken:SimpleToken",
              jsStr pid ++ ":Escrow:Escrow",
              jsStr pid ++ ":CollateralLock:CollateralLock"], w1)
      else (.ok ([] : List String), w1)
  else (.ok templateIds, w)

/-- Lines 221-269 of queryContracts: the /v1/query request for the
resolved template ids and the fallback handling of a non-ok response. -/
def queryFetchPhase (finalTemplateIds : List String) (w1 : World) :
    Except String JsonVal × World :=
  match fetch (queryRequest w1.cs.token finalTemplateIds) w1 with
  | (.error e, w2) => (.error e, w2)
  | (.ok resp, w2) =>
    if resp.ok then (.ok resp.json, w2)
    else
      if jsIncludes resp.text "templateIds" ||
          jsIncludes resp.text "Package ID" ||
          jsIncludes resp.text "Cannot resolve" then
        match fetch (queryRequest w2.cs.token []) w2 with
        | (.error e, w3) => (.error e, w3)
        | (.ok fb, w3) =>
          if fb.ok then
            (.ok (.jcontracts (List.filter fallbackFilter (jContracts fb.json))), w3)
          else (.ok (.jcontracts []), w3)
      else (.error ("Query failed: " ++ resp.text), w2)

/-- DamlApi.queryContracts, assembled from the two phases above. -/
def queryContracts (templateIds : List String) (w : World) :
    Except String JsonVal × World :=
  if !(jsTruthy w.cs.token) then (.error "Not authenticated", w)
  else
    match queryTemplateIds templateIds w with
    | (.error e, w1) => (.error e, w1)
    | (.ok finalTemplateIds, w1) => queryFetchPhase finalTemplateIds w1

/-- DamlApi.createContract, lines 272-295. -/
def createContract (templateId : String) (payload : Payload) (w : World) :
    Except String JsonVal × World :=
  if !(jsTruthy w.cs.token) then (.error "Not authenticated", w)
  else
    match fetch (createRequest w.cs.token templateId payload) w with
    | (.error e, w1) => (.error e, w1)
    | (.ok resp, w1) =>
      if !resp.ok then (.error ("Create failed: " ++ resp.text), w1)
      else (.ok resp.json, w1)

/-- The payload built by createSimpleToken: amount.toString() on a JS
number is modelled as Nat.repr, since no claim depends on numeric
formatting. -/
def mkPayload (issuer owner : String) (amount : Nat) : Payload :=
  ⟨issuer, owner, Nat.repr amount⟩

/-- The error thrown when every package has been tried, lines 364-368. -/
def triedAllMsg (total : Nat) : String :=
  "Tried all " ++ Nat.repr total ++
    " packages but none contained SimpleToken template. " ++
    "The DAR file might not be uploaded correctly. " ++
    "Try running: daml ledger upload-dar --host localhost --port 6865 " ++
    ".daml/dist/hello-canton-0.0.1.dar"

/-- Lines 337-361 of createSimpleToken: walk the package-id list from
the last element to the first (the list passed here is already
reversed), create with pkgId:SimpleToken:SimpleToken, cache the package
id on success, continue on a Cannot resolve / unknownTemplateIds error
message, rethrow any other error, and throw the tried-all error when the
candidates run out. -/
def createLoop (issuer owner : String) (amount : Nat) (total : Nat) :
    List String → World → Except String JsonVal × World
  | [], w => (.error (triedAllMsg total), w)
  | pkgId :: rest, w =>
    match createContract (pkgId ++ ":SimpleToken:SimpleToken")
        (mkPayload issuer owner amount) w with
    | (.ok result, w1) => (.ok result, setPkgItem pkgId w1)
    | (.error err, w1) =>
      if jsIncludes err "Cannot resolve" || jsIncludes err "unknownTemplateIds" then
        createLoop issuer owner amount total rest w1
      else (.error err, w1)

/-- Lines 329-369 of createSimpleToken: the discovery phase entered with
no usable package id; list the packages and run the candidate loop from
the newest package backwards. -/
def discoveryPhase (issuer owner : String) (amount : Nat) (w : World) :
    Except String JsonVal × World :=
  match getPackages w with
  | (.error e, w1) => (.error e, w1)
  | (.ok packagesData, w1) =>
    createLoop issuer owner amount (jPackages packagesData).length
      (jPackages packagesData).reverse w1

/-- DamlApi.createSimpleToken, lines 297-370: guard on the token; obtain
a package id via findPackageId; when truthy, try a create with it, and
on a template-resolution error clear the cached id and fall through to
the discovery phase (any other error is rethrown); with no package id go
straight to the discovery phase. -/
def createSimpleToken (issuer owner : String) (amount : Nat) (w : World) :
    Except String JsonVal × World :=
  if !(jsTruthy w.cs.token) then (.error "Not authenticated", w)
  else
    match findPackageId w with
    | (.error e, w1) => (.error e, w1)
    | (.ok pid, w1) =>
      if jsTruthy pid then
        match createContract (jsStr pid ++ ":SimpleToken:SimpleToken")
            (mkPayload issuer owner amount) w1 with
        | (.ok result, w2) => (.ok result, w2)
        | (.error err, w2) =>
          if jsIncludes err "Cannot resolve" || jsIncludes err "unknownTemplateIds" then
            discoveryPhase issuer owner amount (removePkgItem w2)
          else (.error err, w2)
      else discoveryPhase issuer owner amount w1

/-- DamlApi.exerciseChoice, lines 372-396. -/
def exerciseChoice (contractId choice argument : String) (w : World) :
    Except String JsonVal × World :=
  if !(jsTruthy w.cs.token) then (.error "Not authenticated", w)
  else
    match fetch (exerciseRequest w.cs.token contractId choice argument) w with
    | (.error e, w1) => (.error e, w1)
    | (.ok resp, w1) =>
      if !resp.ok then (.error ("Exercise failed: " ++ resp.text), w1)
      else (.ok resp.json, w1)

/-- The view state of the dashboard component in App.js. -/
structure AppView where
  simpleTokens : List Contract
  escrows : List Contract
  collateralLocks : List Contract
  error : Option String
  loading : Bool
deriving DecidableEq, Repr

/-- One dashboard query of App.js fetchAllContracts, lines 52-56:
damlApi.queryContracts([tid]).catch(() => ({ result: [] })), run against
its own response stream; returns the settled JSON value, the client
state after the call, and the requests the call issued. -/
def queryTask (tid : String) (cs : ClientState) (env : List Response) :
    JsonVal × ClientState × List Request :=
  match queryContracts [tid] ⟨cs, env, []⟩ with
  | (.ok j, w) => (j, w.cs, w.log)
  | (.error _, w) => (.jcontracts [], w.cs, w.log)

/-- App.js fetchAllContracts, lines 45-67: when authenticated, issue the
three contract queries (each response stream models one query's network
behaviour), await all of them, and replace the three collections with
the settled results (result || []); a finished run has loading false and
error null.  When not authenticated the view is left as it was. -/
def fetchAllContracts (cs : ClientState) (prev : AppView)
    (env1 env2 env3 : List Response) : AppView × ClientState :=
  if !(isAuthenticated cs) then (prev, cs)
  else
    let t1 := queryTask "SimpleToken:SimpleToken" cs env1
    let t2 := queryTask "Escrow:Escrow" t1.2.1 env2
    let t3 := queryTask "CollateralLock:CollateralLock" t2.2.1 env3
    ({ simpleTokens := jContracts t1.1
       escrows := jContracts t2.1
       collateralLocks := jContracts t3.1
       error := none
       loading := false }, t3.2.1)

/-- The template id queried for collection i of the dashboard. -/
def tidOf : Fin 3 → String
  | 0 => "SimpleToken:SimpleToken"
  | 1 => "Escrow:Escrow"
  | 2 => "CollateralLock:CollateralLock"

/-- The response stream belonging to collection i. -/
def envOf (env1 env2 env3 : List Response) : Fin 3 → List Response
  | 0 => env1
  | 1 => env2
  | 2 => env3

/-- Run the three dashboard queries in the settlement order given by the
schedule, threading the client state; records each settled result. -/
def runSched (cs : ClientState) (e : Fin 3 → List Response) :
    List (Fin 3) → ClientState × (Fin 3 → Option JsonVal)
  | [] => (cs, fun _ => none)
  | i :: rest =>
    let t := queryTask (tidOf i) cs (e i)
    let r := runSched t.2.1 e rest
    (r.1, fun k => if k = i then some t.1 else r.2 k)

/-- fetchAllContracts under an explicit settlement schedule: the view is
built from the settled results only after the whole schedule has run
(Promise.all resolves only when all three promises have settled). -/
def fetchAllContractsSched (cs : ClientState) (prev : AppView)
    (env1 env2 env3 : List Response) (order : List (Fin 3)) : AppView × ClientState :=
  if !(isAuthenticated cs) then (prev, cs)
  else
    let r := runSched cs (envOf env1 env2 env3) order
    ({ simpleTokens := jContracts ((r.2 0).getD (.jcontracts []))
       escrows := jContracts ((r.2 1).getD (.jcontracts []))
       collateralLocks := jContracts ((r.2 2).getD (.jcontracts []))
       error := none
       loading := false }, r.1)

/-- Observable events of one dashboard fetch: a request issued on behalf
of query i, the settlement of query i, and the state update of
collection i. -/
inductive Ev where
  | request (i : Fin 3) (r : Request)
  | settled (i : Fin 3)
  | updated (i : Fin 3)
deriving DecidableEq, Repr

/-- True exactly on update events. -/
def Ev.isUpdated : Ev → Bool
  | .updated _ => true
  | _ => false

/-- The event trace of a dashboard fetch under a settlement schedule:
each scheduled query contributes its requests and then its settlement,
and only after the whole schedule the three collections are updated
(the code awaits Promise.all before calling the three setters). -/
def schedEvents (cs : ClientState) (env1 env2 env3 : List Response)
    (order : List (Fin 3)) : List Ev :=
  (order.flatMap fun i =>
    ((queryTask (tidOf i) cs (envOf env1 env2 env3 i)).2.2).map (Ev.request i)
      ++ [Ev.settled i])
    ++ [Ev.updated 0, Ev.updated 1, Ev.updated 2]

/-- The Clear Cache button of the dashboard variant with a creation
form: it removes the cached package id before refreshing. -/
def clearPackageCache (cs : ClientState) : ClientState :=
  { cs with storage := removeItem cs.storage "daml_package_id" }

/-- The authenticated ledger operations named by the spec sentence on
bearer-token usage. -/
inductive LedgerOp where
  | queryOp (templateIds : List String)
  | createOp (templateId : String) (payload : Payload)
  | exerciseOp (contractId choice argument : String)
  | packagesOp
  | createTokenOp (issuer owner : String) (amount : Nat)

/-- Dispatch a ledger operation. -/
def runLedgerOp : LedgerOp → World → Except String JsonVal × World
  | .queryOp t => queryContracts t
  | .createOp t p => createContract t p
  | .exerciseOp c ch a => exerciseChoice c ch a
  | .packagesOp => getPackages
  | .createTokenOp i o n => createSimpleToken i o n

/-- Every public operation of the DamlApi client that can run. -/
inductive ApiOp where
  | loginOp (mkJwt : String → Option String → String) (userId : String)
  | logoutOp
  | packagesOp
  | findPkgOp
  | queryOp (templateIds : List String)
  | createOp (templateId : String) (payload : Payload)
  | exerciseOp (contractId choice argument : String)
  | createTokenOp (issuer owner : String) (amount : Nat)

/-- True exactly on the logout operation. -/
def ApiOp.isLogoutOp : ApiOp → Bool
  | .logoutOp => true
  | _ => false

/-- True exactly on the createSimpleToken operation. -/
def ApiOp.isCreateTokenOp : ApiOp → Bool
  | .createTokenOp _ _ _ => true
  | _ => false

/-- Dispatch any client operation, discarding its value. -/
def runApiOp : ApiOp → World → Except String Unit × World
  | .loginOp mk u => fun w =>
      match login mk u w with
      | (.ok _, w1) => (.ok (), w1)
      | (.error e, w1) => (.error e, w1)
  | .logoutOp => fun w => (.ok (), logout w)
  | .packagesOp => fun w =>
      match getPackages w with
      | (.ok _, w1) => (.ok (), w1)
      | (.error e, w1) => (.error e, w1)
  | .findPkgOp => fun w =>
      match findPackageId w with
      | (.ok _, w1) => (.ok (), w1)
      | (.error e, w1) => (.error e, w1)
  | .queryOp t => fun w =>
      match queryContracts t w with
      | (.ok _, w1) => (.ok (), w1)
      | (.error e, w1) => (.error e, w1)
  | .createOp t p => fun w =>
      match createContract t p w with
      | (.ok _, w1) => (.ok (), w1)
      | (.error e, w1) => (.error e, w1)
  | .exerciseOp c ch a => fun w =>
      match exerciseChoice c ch a w with
      | (.ok _, w1) => (.ok (), w1)
      | (.error e, w1) => (.error e, w1)
  | .createTokenOp i o n => fun w =>
      match createSimpleToken i o n w with
      | (.ok _, w1) => (.ok (), w1)
      | (.error e, w1) => (.error e, w1)

/-- Reference formulation of claim C1's candidate loop, written from the
claim text: try each candidate in order, attempting a create with
template id candidate:SimpleToken:SimpleToken; return the result of the
first create that succeeds, caching that candidate; continue to the next
candidate only when the create fails with a template-resolution error
(message containing Cannot resolve or unknownTemplateIds); rethrow any
other error immediately; throw the tried-all error when the candidates
are exhausted.  The total is the length of the full candidate list. -/
def claimCandidateLoop (issuer owner : String) (amount : Nat) (total : Nat) :
    List String → World → Except String JsonVal × World
  | [], w => (.error (triedAllMsg total), w)
  | pkg :: rest, w =>
    match fetch (createRequest w.cs.token (pkg ++ ":SimpleToken:SimpleToken")
        (mkPayload issuer owner amount)) w with
    | (.error e, w1) => (.error e, w1)
    | (.ok resp, w1) =>
      if resp.ok then (.ok resp.json, setPkgItem pkg w1)
      else
        if jsIncludes ("Create failed: " ++ resp.text) "Cannot resolve" ||
            jsIncludes ("Create failed: " ++ resp.text) "unknownTemplateIds" then
          claimCandidateLoop issuer owner amount total rest w1
        else (.error ("Create failed: " ++ resp.text), w1)

/-- The error-text markers that make queryContracts fall back to an
unrestricted query instead of rejecting. -/
def fallbackMarkers (text : String) : Bool :=
  jsIncludes text "templateIds" || jsIncludes text "Package ID" ||
    jsIncludes text "Cannot resolve"

/-- Reference formulation of the amended claim C2 for one dashboard
query: a query whose promise rejects (network failure, or a non-ok
response without the fallback markers) is handled only by defaulting the
collection to the empty result, with no further request; a non-ok
response carrying a fallback marker triggers exactly one fallback query
with empty templateIds, whose ok result is filtered client-side and
whose failure again defaults to the empty result. -/
def claimQueryTask (tok : Option String) (tid : String) (env : List Response) :
    JsonVal × List Request :=
  match env with
  | [] => (.jcontracts [], [queryRequest tok [tid]])
  | .net :: _ => (.jcontracts [], [queryRequest tok [tid]])
  | .http true _ j :: _ => (j, [queryRequest tok [tid]])
  | .http false text _ :: rest =>
    if !(fallbackMarkers text) then (.jcontracts [], [queryRequest tok [tid]])
    else
      match rest with
      | .http true _ fj :: _ =>
        (.jcontracts (List.filter fallbackFilter (jContracts fj)),
         [queryRequest tok [tid], queryRequest tok []])
      | .http false _ _ :: _ =>
        (.jcontracts [], [queryRequest tok [tid], queryRequest tok []])
      | .net :: _ => (.jcontracts [], [queryRequest tok [tid], queryRequest tok []])
      | [] => (.jcontracts [], [queryRequest tok [tid], queryRequest tok []])

/-- The gateway paths the amended claim C7 allows. -/
def allowedPaths : List String :=
  ["/v1/parties", "/v1/query", "/v1/create", "/v1/exercise", "/v1/packages"]

/-- Invariant connecting a world to the world an operation leaves
behind: the three session fields are unchanged, every new logged request
carries the bearer token of the incoming state and one of the allowed
gateway paths, and every storage key outside the allow list stays
present if it was present. -/
def MOk (allow : List String) (w w1 : World) : Prop :=
  w1.cs.token = w.cs.token ∧
  w1.cs.userId = w.cs.userId ∧
  w1.cs.partyIdentifier = w.cs.partyIdentifier ∧
  (∀ r ∈ w1.log, r ∈ w.log ∨
    (r.auth = some ("Bearer " ++ jsStr w.cs.token) ∧ r.path ∈ allowedPaths)) ∧
  (∀ k, k ∉ allow → (getItem w.cs.storage k).isSome →
    (getItem w1.cs.storage k).isSome)

/-- Weaker invariant for login: every new request targets /v1/parties,
and no storage key loses its entry (login only adds entries). -/
def LoginOk (w w1 : World) : Prop :=
  (∀ r ∈ w1.log, r ∈ w.log ∨ r.path ∈ allowedPaths) ∧
  (∀ k, (getItem w.cs.storage k).isSome → (getItem w1.cs.storage k).isSome)

theorem MOk_refl (allow : List String) (w : World) : MOk allow w w := by
  refine ⟨rfl, rfl, rfl, fun r hr => Or.inl hr, fun k _ h => h⟩

theorem MOk_trans {allow : List String} {w w1 w2 : World}
    (h1 : MOk allow w w1) (h2 : MOk allow w1 w2) : MOk allow w w2 := by
  obtain ⟨t1, u1, p1, l1, s1⟩ := h1
  obtain ⟨t2, u2, p2, l2, s2⟩ := h2
  refine ⟨t2.trans t1, u2.trans u1, p2.trans p1, ?_, ?_⟩
  · intro r hr
    rcases l2 r hr with h | h
    · exact l1 r h
    · rw [t1] at h
      exact Or.inr h
  · intro k hk h
    exact s2 k hk (s1 k hk h)

theorem MOk_mono {allow allow2 : List String} {w w1 : World}
    (hsub : ∀ k, k ∉ allow2 → k ∉ allow) (h : MOk allow w w1) :
    MOk allow2 w w1 := by
  obtain ⟨t1, u1, p1, l1, s1⟩ := h
  exact ⟨t1, u1, p1, l1, fun k hk => s1 k (hsub k hk)⟩

theorem getItem_setItem_same (st : Storage) (k v : String) :
    getItem (setItem st k v) k = some v := by
  simp [getItem, setItem]

theorem find?_filterOut (st : Storage) (k k1 : String) (h : k1 ≠ k) :
    List.find? (fun e => e.1 == k1) (List.filter (fun e => !(e.1 == k)) st)
      = List.find? (fun e => e.1 == k1) st := by
  induction st with
  | nil => rfl
  | cons e rest ih =>
    by_cases hek : e.1 = k
    · have hek1 : (e.1 == k1) = false := by
        refine beq_eq_false_iff_ne.mpr ?_
        intro hx
        exact h (hx ▸ hek)
      have hekb : (e.1 == k) = true := beq_iff_eq.mpr hek
      simp only [List.filter, List.find?, hekb, Bool.not_true, ih, hek1]
    · have hekb : (e.1 == k) = false := beq_eq_false_iff_ne.mpr hek
      by_cases hek1 : e.1 = k1
      · have hek1b : (e.1 == k1) = true := beq_iff_eq.mpr hek1
        simp only [List.filter, List.find?, hekb, Bool.not_false, hek1b]
      · have hek1b : (e.1 == k1) = false := beq_eq_false_iff_ne.mpr hek1
        simp only [List.filter, List.find?, hekb, Bool.not_false, hek1b, ih]

theorem getItem_setItem_other (st : Storage) (k v k1 : String) (h : k1 ≠ k) :
    getItem (setItem st k v) k1 = getItem st k1 := by
  have hk : (k == k1) = false := beq_eq_false_iff_ne.mpr (Ne.symm h)
  simp only [getItem, setItem, List.find?, hk, find?_filterOut st k k1 h]

theorem getItem_removeItem_same (st : Storage) (k : String) :
    getItem (removeItem st k) k = none := by
  unfold getItem removeItem
  rw [List.find?_eq_none.mpr]
  · rfl
  · intro x hx
    have hmem := (List.mem_filter.mp hx).2
    simp only [Bool.not_eq_true'] at hmem
    simp [hmem]

theorem getItem_removeItem_other (st : Storage) (k k1 : String) (h : k1 ≠ k) :
    getItem (removeItem st k) k1 = getItem st k1 := by
  simp only [getItem, removeItem, find?_filterOut st k k1 h]

theorem isSome_setItem (st : Storage) (k v k1 : String)
    (h : (getItem st k1).isSome) : (getItem (setItem st k v) k1).isSome := by
  by_cases hk : k1 = k
  · subst hk
    rw [getItem_setItem_same]
    rfl
  · rw [getItem_setItem_other st k v k1 hk]
    exact h

theorem MOk_fetch (allow : List String) (req : Request) (w : World)
    (hauth : req.auth = some ("Bearer " ++ jsStr w.cs.token))
    (hpath : req.path ∈ allowedPaths) :
    MOk allow w (fetch req w).2 := by
  unfold fetch
  split
  all_goals
    refine ⟨rfl, rfl, rfl, ?_, fun k _ h => h⟩
    intro r hr
    simp only [List.mem_append, List.mem_singleton] at hr
    rcases hr with h | h
    · exact Or.inl h
    · exact Or.inr (h ▸ ⟨hauth, hpath⟩)

theorem MOk_setPkg (allow : List String) (p : String) (w : World) :
    MOk allow w (setPkgItem p w) :=
  ⟨rfl, rfl, rfl, fun _ hr => Or.inl hr,
   fun k _ h => isSome_setItem w.cs.storage "daml_package_id" p k h⟩

theorem MOk_removePkg (allow : List String) (w : World)
    (hmem : "daml_package_id" ∈ allow) :
    MOk allow w (removePkgItem w) := by
  refine ⟨rfl, rfl, rfl, fun _ hr => Or.inl hr, ?_⟩
  intro k hk h
  have hne : k ≠ "daml_package_id" := fun hx => hk (hx ▸ hmem)
  show (getItem (removeItem w.cs.storage "daml_package_id") k).isSome
  rw [getItem_removeItem_other _ _ _ hne]
  exact h

theorem MOk_getPackages (allow : List String) (w : World) :
    MOk allow w (getPackages w).2 := by
  unfold getPackages
  split
  · exact MOk_refl allow w
  · have hf := MOk_fetch allow (packagesRequest w.cs.token) w rfl
      (by simp [allowedPaths, packagesRequest])
    split
    next e w1 heq =>
      rw [heq] at hf
      exact hf
    next resp w1 heq =>
      rw [heq] at hf
      split <;> exact hf

theorem MOk_probePackages (allow : List String) (l : List String) :
    ∀ w : World, MOk allow w (probePackages l w).2 := by
  induction l with
  | nil => intro w; exact MOk_refl allow w
  | cons packageId rest ih =>
    intro w
    unfold probePackages
    have hf := MOk_fetch allow
      (queryRequest w.cs.token [packageId ++ ":SimpleToken:SimpleToken"]) w rfl
      (by simp [allowedPaths, queryRequest])
    split
    next e w1 heq =>
      rw [heq] at hf
      exact MOk_trans hf (ih w1)
    next resp w1 heq =>
      rw [heq] at hf
      split
      · exact MOk_trans hf (MOk_setPkg allow packageId w1)
      · exact MOk_trans hf (ih w1)

theorem MOk_findPackageIdBody (allow : List String) (w : World) :
    MOk allow w (findPackageIdBody w).2 := by
  unfold findPackageIdBody
  have hf := MOk_fetch allow (queryRequest w.cs.token []) w rfl
    (by simp [allowedPaths, queryRequest])
  split
  next e w1 heq =>
    rw [heq] at hf
    exact hf
  next resp w1 heq =>
    rw [heq] at hf
    split
    · exact MOk_trans hf (MOk_setPkg allow _ w1)
    · have hg := MOk_getPackages allow w1
      split
      next e2 w2 heq2 =>
        rw [heq2] at hg
        exact MOk_trans hf hg
      next pk w2 heq2 =>
        rw [heq2] at hg
        exact MOk_trans hf (MOk_trans hg (MOk_probePackages allow _ w2))

theorem MOk_findPackageId (allow : List String) (w : World) :
    MOk allow w (findPackageId w).2 := by
  unfold findPackageId
  split
  · exact MOk_refl allow w
  · have hb := MOk_findPackageIdBody allow w
    split
    next r w1 heq =>
      rw [heq] at hb
      exact hb
    next e w1 heq =>
      rw [heq] at hb
      exact hb

theorem MOk_createContract (allow : List String) (templateId : String)
    (payload : Payload) (w : World) :
    MOk allow w (createContract templateId payload w).2 := by
  unfold createContract
  split
  · exact MOk_refl allow w
  · have hf := MOk_fetch allow (createRequest w.cs.token templateId payload) w rfl
      (by simp [allowedPaths, createRequest])
    split
    next e w1 heq =>
      rw [heq] at hf
      exact hf
    next resp w1 heq =>
      rw [heq] at hf
      split <;> exact hf

theorem MOk_queryFetchPhase (allow : List String) (finalTemplateIds : List String)
    (w1 : World) : MOk allow w1 (queryFetchPhase finalTemplateIds w1).2 := by
  unfold queryFetchPhase
  have hf := MOk_fetch allow (queryRequest w1.cs.token finalTemplateIds) w1 rfl
    (by simp [allowedPaths, queryRequest])
  split
  next e w2 heq =>
    rw [heq] at hf
    exact hf
  next resp w2 heq =>
    rw [heq] at hf
    split
    · exact hf
    · split
      · have hf2 := MOk_fetch allow (queryRequest w2.cs.token []) w2 rfl
          (by simp [allowedPaths, queryRequest])
        split
        next e w3 heq2 =>
          rw [heq2] at hf2
          exact MOk_trans hf hf2
        next fb w3 heq2 =>
          rw [heq2] at hf2
          have hw3 := MOk_trans hf hf2
          split <;> exact hw3
      · exact hf

theorem MOk_queryTemplateIds (allow : List String) (templateIds : List String)
    (w : World) : MOk allow w (queryTemplateIds templateIds w).2 := by
  unfold queryTemplateIds
  split
  · have hb := MOk_findPackageId allow w
    split
    next e w1 heq =>
      rw [heq] at hb
      exact hb
    next pid w1 heq =>
      rw [heq] at hb
      split <;> exact hb
  · exact MOk_refl allow w

theorem MOk_queryContracts (allow : List String) (templateIds : List String)
    (w : World) : MOk allow w (queryContracts templateIds w).2 := by
  unfold queryContracts
  split
  · exact MOk_refl allow w
  · have hq := MOk_queryTemplateIds allow templateIds w
    split
    next e w1 heq =>
      rw [heq] at hq
      exact hq
    next finalTemplateIds w1 heq =>
      rw [heq] at hq
      exact MOk_trans hq (MOk_queryFetchPhase allow finalTemplateIds w1)

theorem MOk_createLoop (allow : List String) (issuer owner : String)
    (amount : Nat) (total : Nat) (l : List String) :
    ∀ w : World, MOk allow w (createLoop issuer owner amount total l w).2 := by
  induction l with
  | nil => intro w; exact MOk_refl allow w
  | cons pkgId rest ih =>
    intro w
    unfold createLoop
    have hc := MOk_createContract allow (pkgId ++ ":SimpleToken:SimpleToken")
      (mkPayload issuer owner amount) w
    split
    next result w1 heq =>
      rw [heq] at hc
      exact MOk_trans hc (MOk_setPkg allow pkgId w1)
    next err w1 heq =>
      rw [heq] at hc
      split
      · exact MOk_trans hc (ih w1)
      · exact hc

theorem MOk_discoveryPhase (allow : List String) (issuer owner : String)
    (amount : Nat) (w : World) :
    MOk allow w (discoveryPhase issuer owner amount w).2 := by
  unfold discoveryPhase
  have hg := MOk_getPackages allow w
  split
  next e w1 heq =>
    rw [heq] at hg
    exact hg
  next packagesData w1 heq =>
    rw [heq] at hg
    exact MOk_trans hg (MOk_createLoop allow issuer owner amount _ _ w1)

theorem MOk_createSimpleToken (allow : List String)
    (hmem : "daml_package_id" ∈ allow) (issuer owner : String) (amount : Nat)
    (w : World) : MOk allow w (createSimpleToken issuer owner amount w).2 := by
  unfold createSimpleToken
  split
  · exact MOk_refl allow w
  · have hp := MOk_findPackageId allow w
    split
    next e w1 heq =>
      rw [heq] at hp
      exact hp
    next pid w1 heq =>
      rw [heq] at hp
      split
      · have hc := MOk_createContract allow (jsStr pid ++ ":SimpleToken:SimpleToken")
          (mkPayload issuer owner amount) w1
        split
        next result w2 heq2 =>
          rw [heq2] at hc
          exact MOk_trans hp hc
        next err w2 heq2 =>
          rw [heq2] at hc
          have hw2 := MOk_trans hp hc
          split
          · exact MOk_trans hw2 (MOk_trans (MOk_removePkg allow w2 hmem)
              (MOk_discoveryPhase allow issuer owner amount (removePkgItem w2)))
          · exact hw2
      · exact MOk_trans hp (MOk_discoveryPhase allow issuer owner amount w1)

theorem MOk_exerciseChoice (allow : List String)
    (contractId choice argument : String) (w : World) :
    MOk allow w (exerciseChoice contractId choice argument w).2 := by
  unfold exerciseChoice
  split
  · exact MOk_refl allow w
  · have hf := MOk_fetch allow
      (exerciseRequest w.cs.token contractId choice argument) w rfl
      (by simp [allowedPaths, exerciseRequest])
    split
    next e w1 heq =>
      rw [heq] at hf
      exact hf
    next resp w1 heq =>
      rw [heq] at hf
      split <;> exact hf

theorem LoginOk_login (mkJwt : String → Option String → String)
    (userId : String) (w : World) : LoginOk w (login mkJwt userId w).2 := by
  have hlog : ∀ req w0, (∀ r ∈ (w0 : World).log, r ∈ w.log ∨ r.path ∈ allowedPaths) →
      req.path ∈ allowedPaths →
      ∀ r ∈ (fetch req w0).2.log, r ∈ w.log ∨ r.path ∈ allowedPaths := by
    intro req w0 h0 hpath r hr
    unfold fetch at hr
    rcases hpend : w0.pending with _ | ⟨resp, rest⟩
    · rw [hpend] at hr
      simp only [List.mem_append, List.mem_singleton] at hr
      rcases hr with h | h
      · exact h0 r h
      · exact Or.inr (h ▸ hpath)
    · rw [hpend] at hr
      cases resp <;>
        simp only [List.mem_append, List.mem_singleton] at hr <;>
        rcases hr with h | h
      · exact h0 r h
      · exact Or.inr (h ▸ hpath)
      · exact h0 r h
      · exact Or.inr (h ▸ hpath)
  unfold login
  have hparties : ("/v1/parties" : String) ∈ allowedPaths := by simp [allowedPaths]
  have hf1cs : (fetch (partiesRequest ("Bearer " ++ userId)) w).2.cs = w.cs := by
    unfold fetch
    rcases w.pending with _ | ⟨resp, rest⟩
    · rfl
    · cases resp <;> rfl
  have hf1 : ∀ r ∈ (fetch (partiesRequest ("Bearer " ++ userId)) w).2.log,
      r ∈ w.log ∨ r.path ∈ allowedPaths :=
    hlog _ w (fun r hr => Or.inl hr) hparties
  split
  next e w1 heq =>
    rw [heq] at hf1 hf1cs
    refine ⟨hf1, ?_⟩
    intro k h
    rw [show w1.cs = w.cs from hf1cs]
    exact h
  next resp w1 heq =>
    rw [heq] at hf1 hf1cs
    have hw1log : ∀ r ∈ w1.log, r ∈ w.log ∨ r.path ∈ allowedPaths := hf1
    have hw1cs : w1.cs = w.cs := hf1cs
    split
    · exact ⟨hw1log, fun k h => by rw [hw1cs]; exact h⟩
    · split
      · exact ⟨hw1log, fun k h => by rw [hw1cs]; exact h⟩
      next userParty hfind =>
        have hf2cs : (fetch (partiesRequest ("Bearer " ++ mkJwt userId userParty.identifier)) w1).2.cs = w1.cs := by
          unfold fetch
          rcases w1.pending with _ | ⟨resp2, rest2⟩
          · rfl
          · cases resp2 <;> rfl
        have hf2 : ∀ r ∈ (fetch (partiesRequest ("Bearer " ++ mkJwt userId userParty.identifier)) w1).2.log,
            r ∈ w.log ∨ r.path ∈ allowedPaths :=
          hlog _ w1 hw1log hparties
        split
        next e w2 heq2 =>
          rw [heq2] at hf2 hf2cs
          refine ⟨hf2, ?_⟩
          intro k h
          rw [show w2.cs = w1.cs from hf2cs, hw1cs]
          exact h
        next test w2 heq2 =>
          rw [heq2] at hf2 hf2cs
          have hw2log : ∀ r ∈ w2.log, r ∈ w.log ∨ r.path ∈ allowedPaths := hf2
          have hw2cs : w2.cs = w1.cs := hf2cs
          split
          · exact ⟨hw2log, fun k h => by rw [hw2cs, hw1cs]; exact h⟩
          · refine ⟨hw2log, ?_⟩
            intro k h
            show (getItem (setItem (setItem (setItem w2.cs.storage "daml_token" _)
              "daml_user_id" _) "daml_party_identifier" _) k).isSome
            refine isSome_setItem _ _ _ _ (isSome_setItem _ _ _ _ (isSome_setItem _ _ _ _ ?_))
            rw [hw2cs, hw1cs]
            exact h

theorem fetch_cs (req : Request) (w : World) : ((fetch req w).2).cs = w.cs := by
  unfold fetch
  rcases w.pending with _ | ⟨r, rest⟩
  · rfl
  · cases r <;> rfl

theorem pathsFromMOk {allow : List String} {w1 : World} {cs : ClientState}
    {pending : List Response} (h : MOk allow ⟨cs, pending, []⟩ w1) :
    ∀ r ∈ w1.log, r.path ∈ allowedPaths := by
  intro r hr
  rcases h.2.2.2.1 r hr with hc | hc
  · exact absurd hc (List.not_mem_nil r)
  · exact hc.2

theorem authFromMOk {allow : List String} {w1 : World} {cs : ClientState}
    {pending : List Response} {t : String} (ht : cs.token = some t)
    (h : MOk allow ⟨cs, pending, []⟩ w1) :
    ∀ r ∈ w1.log, r.auth = some ("Bearer " ++ t) := by
  intro r hr
  rcases h.2.2.2.1 r hr with hc | hc
  · exact absurd hc (List.not_mem_nil r)
  · have hx := hc.1
    rw [show (⟨cs, pending, []⟩ : World).cs.token = some t from ht] at hx
    exact hx

/-- C10: logout() sets token, userId, and partyIdentifier to null and
removes the daml_token, daml_user_id and daml_party_identifier
localStorage entries, after which isAuthenticated() returns false; every
other stored value, in particular the cached daml_package_id entry, is
left unchanged. -/
theorem c10_logout_clears_session (w : World) :
    (logout w).cs.token = none ∧
    (logout w).cs.userId = none ∧
    (logout w).cs.partyIdentifier = none ∧
    getItem (logout w).cs.storage "daml_token" = none ∧
    getItem (logout w).cs.storage "daml_user_id" = none ∧
    getItem (logout w).cs.storage "daml_party_identifier" = none ∧
    isAuthenticated (logout w).cs = false ∧
    (∀ k, k ≠ "daml_token" → k ≠ "daml_user_id" → k ≠ "daml_party_identifier" →
      getItem (logout w).cs.storage k = getItem w.cs.storage k) := by
  refine ⟨rfl, rfl, rfl, ?_, ?_, ?_, rfl, ?_⟩
  · show getItem (removeItem (removeItem (removeItem w.cs.storage "daml_token")
      "daml_user_id") "daml_party_identifier") "daml_token" = none
    rw [getItem_removeItem_other _ _ _ (by decide),
        getItem_removeItem_other _ _ _ (by decide),
        getItem_removeItem_same]
  · show getItem (removeItem (removeItem (removeItem w.cs.storage "daml_token")
      "daml_user_id") "daml_party_identifier") "daml_user_id" = none
    rw [getItem_removeItem_other _ _ _ (by decide),
        getItem_removeItem_same]
  · show getItem (removeItem (removeItem (removeItem w.cs.storage "daml_token")
      "daml_user_id") "daml_party_identifier") "daml_party_identifier" = none
    rw [getItem_removeItem_same]
  · intro k h1 h2 h3
    show getItem (removeItem (removeItem (removeItem w.cs.storage "daml_token")
      "daml_user_id") "daml_party_identifier") k = getItem w.cs.storage k
    rw [getItem_removeItem_other _ _ _ h3, getItem_removeItem_other _ _ _ h2,
        getItem_removeItem_other _ _ _ h1]

theorem c10_witness :
    ("daml_package_id" : String) ≠ "daml_token" ∧
    ("daml_package_id" : String) ≠ "daml_user_id" ∧
    ("daml_package_id" : String) ≠ "daml_party_identifier" ∧
    getItem (logout ⟨⟨some "tok", some "alice", some "p::1",
        [("daml_package_id", "abc"), ("daml_token", "tok")]⟩, [], []⟩).cs.storage
        "daml_package_id"
      = getItem (⟨⟨some "tok", some "alice", some "p::1",
        [("daml_package_id", "abc"), ("daml_token", "tok")]⟩, [], []⟩ : World).cs.storage
        "daml_package_id" :=
  ⟨by decide, by decide, by decide,
   (c10_logout_clears_session ⟨⟨some "tok", some "alice", some "p::1",
      [("daml_package_id", "abc"), ("daml_token", "tok")]⟩, [], []⟩).2.2.2.2.2.2.2
     "daml_package_id" (by decide) (by decide) (by decide)⟩

/-- C9: findPackageId never throws: it returns the cached package id
when a truthy one is stored (leaving the world untouched), and otherwise
its result is an ok value (a discovered package id or null) for every
state, since the discovery body runs inside a catch that returns null. -/
theorem c9_findPackageId_never_throws (w : World) :
    (∃ o, (findPackageId w).1 = Except.ok o) ∧
    (jsTruthy (getItem w.cs.storage "daml_package_id") = true →
      findPackageId w = (Except.ok (getItem w.cs.storage "daml_package_id"), w)) := by
  constructor
  · unfold findPackageId
    split
    · exact ⟨getItem w.cs.storage "daml_package_id", rfl⟩
    · split
      next r w1 heq => exact ⟨r, rfl⟩
      next e w1 heq => exact ⟨none, rfl⟩
  · intro hc
    unfold findPackageId
    rw [hc]
    simp

theorem c9_witness :
    jsTruthy (getItem ([("daml_package_id", "abc")] : Storage) "daml_package_id") = true ∧
    (∃ o, (findPackageId ⟨⟨some "tok", none, none,
        [("daml_package_id", "abc")]⟩, [], []⟩).1 = Except.ok o) ∧
    findPackageId ⟨⟨some "tok", none, none, [("daml_package_id", "abc")]⟩, [], []⟩
      = (Except.ok (getItem ([("daml_package_id", "abc")] : Storage) "daml_package_id"),
         ⟨⟨some "tok", none, none, [("daml_package_id", "abc")]⟩, [], []⟩) :=
  ⟨by decide,
   (c9_findPackageId_never_throws ⟨⟨some "tok", none, none,
      [("daml_package_id", "abc")]⟩, [], []⟩).1,
   (c9_findPackageId_never_throws ⟨⟨some "tok", none, none,
      [("daml_package_id", "abc")]⟩, [], []⟩).2 (by decide)⟩

/-- C8: login is atomic with respect to session state: whenever it
throws (parties fetch fails, the response is not ok, no party matches,
or the token test fails), the client state, instance fields and
localStorage included, is exactly what it was before the call; only the
fully successful path updates it. -/
theorem c8_login_atomic (mkJwt : String → Option String → String)
    (userId : String) (w : World) (e : String) :
    (login mkJwt userId w).1 = Except.error e →
    (login mkJwt userId w).2.cs = w.cs := by
  unfold login
  have h1 := fetch_cs (partiesRequest ("Bearer " ++ userId)) w
  split
  next e1 w1 heq =>
    rw [heq] at h1
    intro _
    exact h1
  next resp w1 heq =>
    rw [heq] at h1
    split
    · intro _
      exact h1
    · split
      · intro _
        exact h1
      next userParty hfind =>
        have h2 := fetch_cs
          (partiesRequest ("Bearer " ++ mkJwt userId userParty.identifier)) w1
        split
        next e2 w2 heq2 =>
          rw [heq2] at h2
          intro _
          exact h2.trans h1
        next test w2 heq2 =>
          rw [heq2] at h2
          split
          · intro _
            exact h2.trans h1
          · intro hcontra
            exact absurd hcontra (by simp)

theorem c8_witness :
    (login (fun _ _ => "jwt") "alice" ⟨⟨none, none, none, []⟩, [], []⟩).1
      = Except.error fetchFailMsg ∧
    (login (fun _ _ => "jwt") "alice" ⟨⟨none, none, none, []⟩, [], []⟩).2.cs
      = (⟨⟨none, none, none, []⟩, [], []⟩ : World).cs :=
  ⟨rfl, c8_login_atomic (fun _ _ => "jwt") "alice"
    ⟨⟨none, none, none, []⟩, [], []⟩ fetchFailMsg rfl⟩

/-- C6: every ledger operation (queryContracts, createContract,
exerciseChoice, getPackages, createSimpleToken) throws Not authenticated
before issuing any HTTP request when no token is held (the request log
stays empty and no response is consumed), and when a token is held every
request it issues carries an Authorization of Bearer followed by that
token. -/
theorem c6_ledger_ops_auth (op : LedgerOp) (cs : ClientState)
    (pending : List Response) :
    (jsTruthy cs.token = false →
      runLedgerOp op ⟨cs, pending, []⟩
        = (Except.error "Not authenticated", ⟨cs, pending, []⟩)) ∧
    (∀ t, cs.token = some t → t ≠ "" →
      ∀ r ∈ (runLedgerOp op ⟨cs, pending, []⟩).2.log,
        r.auth = some ("Bearer " ++ t)) := by
  constructor
  · intro h
    cases op <;>
      simp [runLedgerOp, queryContracts, createContract, exerciseChoice,
        getPackages, createSimpleToken, h]
  · intro t ht _
    cases op with
    | queryOp templateIds =>
      exact authFromMOk ht (MOk_queryContracts ["daml_package_id"] templateIds _)
    | createOp templateId payload =>
      exact authFromMOk ht (MOk_createContract ["daml_package_id"] templateId payload _)
    | exerciseOp contractId choice argument =>
      exact authFromMOk ht (MOk_exerciseChoice ["daml_package_id"] contractId choice argument _)
    | packagesOp =>
      exact authFromMOk ht (MOk_getPackages ["daml_package_id"] _)
    | createTokenOp issuer owner amount =>
      exact authFromMOk ht
        (MOk_createSimpleToken ["daml_package_id"] (by simp) issuer owner amount _)

theorem c6_witness :
    jsTruthy (none : Option String) = false ∧
    runLedgerOp (.queryOp ["SimpleToken:SimpleToken"])
        ⟨⟨none, none, none, []⟩, [], []⟩
      = (Except.error "Not authenticated", ⟨⟨none, none, none, []⟩, [], []⟩) ∧
    (some "tok" : Option String) = some "tok" ∧ ("tok" : String) ≠ "" ∧
    (∀ r ∈ (runLedgerOp (.queryOp ["SimpleToken:SimpleToken"])
        ⟨⟨some "tok", none, none, []⟩, [Response.net], []⟩).2.log,
      r.auth = some ("Bearer " ++ "tok")) :=
  ⟨rfl,
   (c6_ledger_ops_auth (.queryOp ["SimpleToken:SimpleToken"])
      ⟨none, none, none, []⟩ []).1 rfl,
   rfl, by decide,
   (c6_ledger_ops_auth (.queryOp ["SimpleToken:SimpleToken"])
      ⟨some "tok", none, none, []⟩ [Response.net]).2 "tok" rfl (by decide)⟩

/-- C7 counterexample: the claim limits the client to the four paths
/v1/parties, /v1/query, /v1/create and /v1/exercise, but getPackages
issues its request against /v1/packages, which is none of the four. -/
theorem c7_counterexample :
    (getPackages ⟨⟨some "tok", none, none, []⟩, [], []⟩).2.log
      = [packagesRequest (some "tok")] ∧
    (packagesRequest (some "tok")).path = "/v1/packages" ∧
    "/v1/packages" ∉
      (["/v1/parties", "/v1/query", "/v1/create", "/v1/exercise"] : List String) :=
  ⟨rfl, rfl, by decide⟩

/-- C7 amended: every request issued by any operation of the API client
targets one of exactly five gateway paths: /v1/parties, /v1/query,
/v1/create, /v1/exercise, and additionally /v1/packages (used by
getPackages and hence by the package-id discovery). -/
theorem c7_amended_endpoints (op : ApiOp) (cs : ClientState)
    (pending : List Response) :
    ∀ r ∈ (runApiOp op ⟨cs, pending, []⟩).2.log, r.path ∈ allowedPaths := by
  cases op with
  | loginOp mkJwt userId =>
    have hl := LoginOk_login mkJwt userId ⟨cs, pending, []⟩
    intro r hr
    simp only [runApiOp] at hr
    rcases hlog : login mkJwt userId ⟨cs, pending, []⟩ with ⟨res, w1⟩
    rw [hlog] at hl hr
    have hmem : r ∈ w1.log := by
      cases res <;> simpa using hr
    rcases hl.1 r hmem with hc | hc
    · exact absurd hc (List.not_mem_nil r)
    · exact hc
  | logoutOp =>
    intro r hr
    simp only [runApiOp] at hr
    exact absurd hr (List.not_mem_nil r)
  | packagesOp =>
    intro r hr
    simp only [runApiOp] at hr
    have h := MOk_getPackages [] (⟨cs, pending, []⟩ : World)
    rcases hg : getPackages ⟨cs, pending, []⟩ with ⟨res, w1⟩
    rw [hg] at h hr
    have hmem : r ∈ w1.log := by
      cases res <;> simpa using hr
    exact pathsFromMOk h r hmem
  | findPkgOp =>
    intro r hr
    simp only [runApiOp] at hr
    have h := MOk_findPackageId [] (⟨cs, pending, []⟩ : World)
    rcases hg : findPackageId ⟨cs, pending, []⟩ with ⟨res, w1⟩
    rw [hg] at h hr
    have hmem : r ∈ w1.log := by
      cases res <;> simpa using hr
    exact pathsFromMOk h r hmem
  | queryOp templateIds =>
    intro r hr
    simp only [runApiOp] at hr
    have h := MOk_queryContracts [] templateIds (⟨cs, pending, []⟩ : World)
    rcases hg : queryContracts templateIds ⟨cs, pending, []⟩ with ⟨res, w1⟩
    rw [hg] at h hr
    have hmem : r ∈ w1.log := by
      cases res <;> simpa using hr
    exact pathsFromMOk h r hmem
  | createOp templateId payload =>
    intro r hr
    simp only [runApiOp] at hr
    have h := MOk_createContract [] templateId payload (⟨cs, pending, []⟩ : World)
    rcases hg : createContract templateId payload ⟨cs, pending, []⟩ with ⟨res, w1⟩
    rw [hg] at h hr
    have hmem : r ∈ w1.log := by
      cases res <;> simpa using hr
    exact pathsFromMOk h r hmem
  | exerciseOp contractId choice argument =>
    intro r hr
    simp only [runApiOp] at hr
    have h := MOk_exerciseChoice [] contractId choice argument (⟨cs, pending, []⟩ : World)
    rcases hg : exerciseChoice contractId choice argument ⟨cs, pending, []⟩ with ⟨res, w1⟩
    rw [hg] at h hr
    have hmem : r ∈ w1.log := by
      cases res <;> simpa using hr
    exact pathsFromMOk h r hmem
  | createTokenOp issuer owner amount =>
    intro r hr
    simp only [runApiOp] at hr
    have h := MOk_createSimpleToken ["daml_package_id"] (by simp) issuer owner amount
      (⟨cs, pending, []⟩ : World)
    rcases hg : createSimpleToken issuer owner amount ⟨cs, pending, []⟩ with ⟨res, w1⟩
    rw [hg] at h hr
    have hmem : r ∈ w1.log := by
      cases res <;> simpa using hr
    exact pathsFromMOk h r hmem

theorem c7_witness :
    packagesRequest (some "tok")
        ∈ (runApiOp .packagesOp ⟨⟨some "tok", none, none, []⟩, [], []⟩).2.log ∧
    (packagesRequest (some "tok")).path ∈ allowedPaths :=
  ⟨by decide,
   c7_amended_endpoints .packagesOp ⟨some "tok", none, none, []⟩ []
     (packagesRequest (some "tok")) (by decide)⟩

theorem queryTask_eq_claim (cs : ClientState) (tid : String) (env : List Response)
    (h : jsTruthy cs.token = true) :
    queryTask tid cs env
      = ((claimQueryTask cs.token tid env).1, cs, (claimQueryTask cs.token tid env).2) := by
  cases env with
  | nil =>
    simp [queryTask, queryContracts, queryTemplateIds, queryFetchPhase,
      claimQueryTask, fetch, h]
  | cons resp rest =>
    cases resp with
    | net =>
      simp [queryTask, queryContracts, queryTemplateIds, queryFetchPhase,
        claimQueryTask, fetch, h]
    | http ok text json =>
      cases ok with
      | true =>
        simp [queryTask, queryContracts, queryTemplateIds, queryFetchPhase,
          claimQueryTask, fetch, h]
      | false =>
        cases hm : fallbackMarkers text with
        | false =>
          have hm2 : (jsIncludes text "templateIds" || jsIncludes text "Package ID" ||
              jsIncludes text "Cannot resolve") = false := by
            simpa [fallbackMarkers] using hm
          simp [queryTask, queryContracts, queryTemplateIds, queryFetchPhase,
            claimQueryTask, fetch, h, hm, hm2]
        | true =>
          have hm2 : (jsIncludes text "templateIds" || jsIncludes text "Package ID" ||
              jsIncludes text "Cannot resolve") = true := by
            simpa [fallbackMarkers] using hm
          cases rest with
          | nil =>
            simp [queryTask, queryContracts, queryTemplateIds, queryFetchPhase,
              claimQueryTask, fetch, h, hm, hm2]
          | cons resp2 rest2 =>
            cases resp2 with
            | net =>
              simp [queryTask, queryContracts, queryTemplateIds, queryFetchPhase,
                claimQueryTask, fetch, h, hm, hm2]
            | http ok2 text2 json2 =>
              cases ok2 <;>
                simp [queryTask, queryContracts, queryTemplateIds, queryFetchPhase,
                  claimQueryTask, fetch, h, hm, hm2]

theorem queryTask_state (tid : String) (cs : ClientState) (env : List Response)
    (h : jsTruthy cs.token = true) : (queryTask tid cs env).2.1 = cs := by
  rw [queryTask_eq_claim cs tid env h]

/-- C2 counterexample: with the SimpleToken query answered by a non-ok
response whose text mentions Cannot resolve, the dashboard fetch does
not default that collection to empty: queryContracts re-issues a second,
unrestricted /v1/query and the collection receives the client-side
filtered contracts of the fallback response, so the failing query leads
to a second request and a non-empty collection. -/
theorem c2_counterexample :
    (fetchAllContracts ⟨some "tok", none, none, []⟩ ⟨[], [], [], none, false⟩
        [Response.http false "Cannot resolve template" .jnull,
         Response.http true "" (.jcontracts [⟨"cid1", some "pkg:SimpleToken:SimpleToken"⟩])]
        [Response.http true "" (.jcontracts [])]
        [Response.http true "" (.jcontracts [])]).1.simpleTokens
      = [⟨"cid1", some "pkg:SimpleToken:SimpleToken"⟩] ∧
    (queryTask "SimpleToken:SimpleToken" ⟨some "tok", none, none, []⟩
        [Response.http false "Cannot resolve template" .jnull,
         Response.http true "" (.jcontracts [⟨"cid1", some "pkg:SimpleToken:SimpleToken"⟩])]).2.2
      = [queryRequest (some "tok") ["SimpleToken:SimpleToken"],
         queryRequest (some "tok") []] ∧
    [(⟨"cid1", some "pkg:SimpleToken:SimpleToken"⟩ : Contract)] ≠ [] := by
  refine ⟨by decide, by decide, by decide⟩

/-- C2 amended: a dashboard query whose promise rejects (network
failure, or a non-ok response whose error text mentions none of
templateIds, Package ID, Cannot resolve) is handled only by defaulting
its collection to the empty list, with no further request and without
touching the other collections; however a non-ok response that does
carry one of those markers makes queryContracts issue exactly one
fallback /v1/query with empty templateIds whose ok result is filtered
client-side (possibly non-empty) and whose failure defaults to empty.
Each collection is determined by its own response stream alone. -/
theorem c2_amended_query_handling (cs : ClientState) (tid : String)
    (env : List Response) (h : jsTruthy cs.token = true) :
    queryTask tid cs env
      = ((claimQueryTask cs.token tid env).1, cs, (claimQueryTask cs.token tid env).2) ∧
    (∀ prev env1 env2 env3,
      fetchAllContracts cs prev env1 env2 env3
        = ({ simpleTokens :=
               jContracts (claimQueryTask cs.token "SimpleToken:SimpleToken" env1).1
             escrows := jContracts (claimQueryTask cs.token "Escrow:Escrow" env2).1
             collateralLocks :=
               jContracts (claimQueryTask cs.token "CollateralLock:CollateralLock" env3).1
             error := none
             loading := false }, cs)) := by
  refine ⟨queryTask_eq_claim cs tid env h, ?_⟩
  intro prev env1 env2 env3
  have h1 := queryTask_eq_claim cs "SimpleToken:SimpleToken" env1 h
  have h2 := queryTask_eq_claim cs "Escrow:Escrow" env2 h
  have h3 := queryTask_eq_claim cs "CollateralLock:CollateralLock" env3 h
  simp only [fetchAllContracts, isAuthenticated, h, Bool.not_true,
    Bool.false_eq_true, if_false, h1, h2, h3]

theorem c2_witness :
    jsTruthy (some "tok" : Option String) = true ∧
    queryTask "SimpleToken:SimpleToken" ⟨some "tok", none, none, []⟩ [Response.net]
      = ((claimQueryTask (some "tok") "SimpleToken:SimpleToken" [Response.net]).1,
         ⟨some "tok", none, none, []⟩,
         (claimQueryTask (some "tok") "SimpleToken:SimpleToken" [Response.net]).2) :=
  ⟨by decide,
   (c2_amended_query_handling ⟨some "tok", none, none, []⟩ "SimpleToken:SimpleToken"
      [Response.net] (by decide)).1⟩

theorem runSched_char (cs : ClientState) (e : Fin 3 → List Response)
    (h : jsTruthy cs.token = true) (ord : List (Fin 3)) :
    runSched cs e ord
      = (cs, fun k => if k ∈ ord then some (queryTask (tidOf k) cs (e k)).1 else none) := by
  induction ord with
  | nil =>
    refine Prod.ext rfl (funext fun k => ?_)
    simp [runSched]
  | cons i rest ih =>
    simp only [runSched]
    rw [queryTask_state (tidOf i) cs (e i) h, ih]
    refine Prod.ext rfl (funext fun k => ?_)
    by_cases hk : k = i
    · subst hk
      simp
    · simp [hk, List.mem_cons]

/-- C3: the three dashboard queries run under an arbitrary settlement
schedule (any order that eventually settles each of the three queries
produces the same final view, matching the unscheduled code), and in the
observable event trace every collection update comes strictly after all
three settlements: the updates form the trace suffix and no update
occurs while a query is still pending. -/
theorem c3_settlement_order (order : List (Fin 3)) (hcov : ∀ i : Fin 3, i ∈ order)
    (cs : ClientState) (prev : AppView) (env1 env2 env3 : List Response) :
    fetchAllContractsSched cs prev env1 env2 env3 order
      = fetchAllContracts cs prev env1 env2 env3 ∧
    (∃ pre, schedEvents cs env1 env2 env3 order
        = pre ++ [Ev.updated 0, Ev.updated 1, Ev.updated 2] ∧
      (∀ i : Fin 3, Ev.settled i ∈ pre) ∧ (∀ j : Fin 3, Ev.updated j ∉ pre)) := by
  constructor
  · cases hauth : isAuthenticated cs with
    | false =>
      simp [fetchAllContractsSched, fetchAllContracts, hauth]
    | true =>
      have h : jsTruthy cs.token = true := hauth
      simp only [fetchAllContractsSched, fetchAllContracts, hauth, Bool.not_true,
        Bool.false_eq_true, if_false]
      rw [runSched_char cs (envOf env1 env2 env3) h order]
      rw [queryTask_state "SimpleToken:SimpleToken" cs env1 h,
          queryTask_state "Escrow:Escrow" cs env2 h]
      simp [hcov 0, hcov 1, hcov 2, envOf, tidOf,
        queryTask_state "CollateralLock:CollateralLock" cs env3 h]
  · refine ⟨order.flatMap fun i =>
      ((queryTask (tidOf i) cs (envOf env1 env2 env3 i)).2.2).map (Ev.request i)
        ++ [Ev.settled i], rfl, ?_, ?_⟩
    · intro i
      refine List.mem_flatMap.mpr ⟨i, hcov i, ?_⟩
      simp
    · intro j hmem
      rcases List.mem_flatMap.mp hmem with ⟨a, _, hin⟩
      rcases List.mem_append.mp hin with hin2 | hin2
      · rcases List.mem_map.mp hin2 with ⟨r, _, habs⟩
        exact Ev.noConfusion habs
      · rcases List.mem_singleton.mp hin2 with habs
        exact Ev.noConfusion habs

theorem c3_witness :
    (∀ i : Fin 3, i ∈ ([2, 0, 1] : List (Fin 3))) ∧
    fetchAllContractsSched ⟨some "tok", none, none, []⟩ ⟨[], [], [], none, false⟩
        [Response.net] [Response.net] [Response.net] [2, 0, 1]
      = fetchAllContracts ⟨some "tok", none, none, []⟩ ⟨[], [], [], none, false⟩
        [Response.net] [Response.net] [Response.net] :=
  ⟨by decide,
   (c3_settlement_order [2, 0, 1] (by decide) ⟨some "tok", none, none, []⟩
      ⟨[], [], [], none, false⟩ [Response.net] [Response.net] [Response.net]).1⟩

/-- C4 counterexample: an authenticated refresh leaves the cached
daml_package_id entry in place — fetchAllContracts does not invalidate
the guessed package id, contradicting the claim that the refresh
invalidation extends to every client-side cache. -/
theorem c4_counterexample :
    isAuthenticated ⟨some "tok", none, none, [("daml_package_id", "pkg")]⟩ = true ∧
    getItem (fetchAllContracts ⟨some "tok", none, none, [("daml_package_id", "pkg")]⟩
        ⟨[], [], [], none, false⟩
        [Response.http true "" (.jcontracts [])]
        [Response.http true "" (.jcontracts [])]
        [Response.http true "" (.jcontracts [])]).2.storage "daml_package_id"
      = some "pkg" ∧
    (some "pkg" : Option String) ≠ none := by
  refine ⟨by decide, by decide, by decide⟩

/-- C4 amended: each invocation of fetchAllContracts by an authenticated
client replaces the three contract collections entirely with the results
of the fresh queries — the new view is independent of the previously
held collections — but the refresh does not invalidate the cached
package id: the client state, the daml_package_id entry included, is
exactly what it was before the refresh.  Only the separate Clear Cache
control removes the cached package id. -/
theorem c4_refresh_replaces_collections (cs : ClientState) (prev prev2 : AppView)
    (env1 env2 env3 : List Response) (h : isAuthenticated cs = true) :
    (fetchAllContracts cs prev env1 env2 env3).1
      = (fetchAllContracts cs prev2 env1 env2 env3).1 ∧
    (fetchAllContracts cs prev env1 env2 env3).2 = cs ∧
    getItem (clearPackageCache cs).storage "daml_package_id" = none := by
  have ht : jsTruthy cs.token = true := h
  refine ⟨?_, ?_, ?_⟩
  · simp only [fetchAllContracts, h, Bool.not_true, Bool.false_eq_true, if_false]
  · simp only [fetchAllContracts, h, Bool.not_true, Bool.false_eq_true, if_false]
    rw [queryTask_state "SimpleToken:SimpleToken" cs env1 ht,
        queryTask_state "Escrow:Escrow" cs env2 ht,
        queryTask_state "CollateralLock:CollateralLock" cs env3 ht]
  · exact getItem_removeItem_same cs.storage "daml_package_id"

theorem c4_witness :
    isAuthenticated ⟨some "tok", none, none, [("daml_package_id", "pkg")]⟩ = true ∧
    (fetchAllContracts ⟨some "tok", none, none, [("daml_package_id", "pkg")]⟩
        ⟨[⟨"old", none⟩], [], [], none, false⟩ [Response.net] [] []).1
      = (fetchAllContracts ⟨some "tok", none, none, [("daml_package_id", "pkg")]⟩
        ⟨[], [⟨"stale", none⟩], [], some "x", true⟩ [Response.net] [] []).1 ∧
    (fetchAllContracts ⟨some "tok", none, none, [("daml_package_id", "pkg")]⟩
        ⟨[⟨"old", none⟩], [], [], none, false⟩ [Response.net] [] []).2
      = ⟨some "tok", none, none, [("daml_package_id", "pkg")]⟩ :=
  ⟨by decide,
   (c4_refresh_replaces_collections ⟨some "tok", none, none, [("daml_package_id", "pkg")]⟩
      ⟨[⟨"old", none⟩], [], [], none, false⟩ ⟨[], [⟨"stale", none⟩], [], some "x", true⟩
      [Response.net] [] [] (by decide)).1,
   (c4_refresh_replaces_collections ⟨some "tok", none, none, [("daml_package_id", "pkg")]⟩
      ⟨[⟨"old", none⟩], [], [], none, false⟩ ⟨[], [⟨"stale", none⟩], [], some "x", true⟩
      [Response.net] [] [] (by decide)).2.1⟩

theorem jsTruthy_none : jsTruthy none = false := rfl

theorem jsTruthy_some_of (c : String) (h : jsTruthy (some c) = true) :
    jsTruthy (some c) = true := h

theorem jPackages_jpackages (l : List String) : jPackages (.jpackages l) = l := rfl

theorem jsStr_some (s : String) : jsStr (some s) = s := rfl

theorem jsIncludes_fetchFail_resolve : jsIncludes fetchFailMsg "Cannot resolve" = false := by
  decide

theorem jsIncludes_fetchFail_unknown : jsIncludes fetchFailMsg "unknownTemplateIds" = false := by
  decide

theorem createLoop_eq_claim (issuer owner : String) (amount total : Nat)
    (l : List String) :
    ∀ w : World, jsTruthy w.cs.token = true →
      createLoop issuer owner amount total l w
        = claimCandidateLoop issuer owner amount total l w := by
  induction l with
  | nil => intro w _; rfl
  | cons pkg rest ih =>
    intro w h
    rcases hp : w.pending with _ | ⟨r, rest2⟩
    · simp [createLoop, claimCandidateLoop, createContract, fetch, hp, h,
        jsIncludes_fetchFail_resolve, jsIncludes_fetchFail_unknown]
    · cases r with
      | net =>
        simp [createLoop, claimCandidateLoop, createContract, fetch, hp, h,
          jsIncludes_fetchFail_resolve, jsIncludes_fetchFail_unknown]
      | http ok text json =>
        cases ok with
        | true => simp [createLoop, claimCandidateLoop, createContract, fetch, hp, h]
        | false =>
          cases hcond : (jsIncludes ("Create failed: " ++ text) "Cannot resolve" ||
              jsIncludes ("Create failed: " ++ text) "unknownTemplateIds") with
          | false =>
            simp [createLoop, claimCandidateLoop, createContract, fetch, hp, h, hcond]
          | true =>
            have hi := ih
              ⟨w.cs, rest2,
               w.log ++ [createRequest w.cs.token (pkg ++ ":SimpleToken:SimpleToken")
                  (mkPayload issuer owner amount)]⟩ h
            simp [createLoop, claimCandidateLoop, createContract, fetch, hp, h, hcond, hi]

/-- C1: when createSimpleToken holds no usable cached package id — either
findPackageId yields null (first branch: the discovery probe fails and
no candidate is cached) or the cached id fails its create with a
template-resolution error and is cleared (second branch) — it fetches
the candidate package-id list via getPackages and behaves exactly as the
claim describes: it walks the candidates from the last element to the
first, attempts a create with template id candidate:SimpleToken:SimpleToken
for each, returns the first success (caching that candidate), continues
past a candidate only on a Cannot resolve / unknownTemplateIds error
message, rethrows any other error immediately, and throws the
Tried all ... packages error when the candidates are exhausted — all of
which is the content of claimCandidateLoop. -/
theorem c1_createSimpleToken_discovery :
    (∀ (cs : ClientState) (issuer owner : String) (amount : Nat)
        (pkgs : List String) (rs : List Response) (ptext : String),
      jsTruthy cs.token = true →
      jsTruthy (getItem cs.storage "daml_package_id") = false →
      createSimpleToken issuer owner amount
          ⟨cs, Response.net :: Response.http true ptext (.jpackages pkgs) :: rs, []⟩
        = claimCandidateLoop issuer owner amount pkgs.length pkgs.reverse
            ⟨cs, rs, [queryRequest cs.token [], packagesRequest cs.token]⟩) ∧
    (∀ (cs : ClientState) (issuer owner : String) (amount : Nat) (c : String)
        (pkgs : List String) (rs : List Response) (etext ptext : String) (ej : JsonVal),
      jsTruthy cs.token = true →
      jsTruthy (getItem cs.storage "daml_package_id") = true →
      getItem cs.storage "daml_package_id" = some c →
      (jsIncludes ("Create failed: " ++ etext) "Cannot resolve" ||
        jsIncludes ("Create failed: " ++ etext) "unknownTemplateIds") = true →
      createSimpleToken issuer owner amount
          ⟨cs, Response.http false etext ej ::
               Response.http true ptext (.jpackages pkgs) :: rs, []⟩
        = claimCandidateLoop issuer owner amount pkgs.length pkgs.reverse
            ⟨{ cs with storage := removeItem cs.storage "daml_package_id" }, rs,
             [createRequest cs.token (c ++ ":SimpleToken:SimpleToken")
                (mkPayload issuer owner amount),
              packagesRequest cs.token]⟩) := by
  constructor
  · intro cs issuer owner amount pkgs rs ptext h hc
    have hl := createLoop_eq_claim issuer owner amount pkgs.length pkgs.reverse
      ⟨cs, rs, [queryRequest cs.token [], packagesRequest cs.token]⟩ h
    simp [createSimpleToken, findPackageId, findPackageIdBody, getPackages,
      discoveryPhase, fetch, h, hc, hl, jsTruthy_none, jPackages_jpackages]
  · intro cs issuer owner amount c pkgs rs etext ptext ej h hct hc hmark
    have hcc : jsTruthy (some c) = true := hc ▸ hct
    have hm2 : jsIncludes ("Create failed: " ++ etext) "Cannot resolve" = true ∨
        jsIncludes ("Create failed: " ++ etext) "unknownTemplateIds" = true := by
      simpa using hmark
    have hl := createLoop_eq_claim issuer owner amount pkgs.length pkgs.reverse
      ⟨{ cs with storage := removeItem cs.storage "daml_package_id" }, rs,
       [createRequest cs.token (c ++ ":SimpleToken:SimpleToken")
          (mkPayload issuer owner amount),
        packagesRequest cs.token]⟩ h
    simp [createSimpleToken, findPackageId, findPackageIdBody, getPackages,
      discoveryPhase, removePkgItem, createContract, fetch, h, hct, hc, hcc,
      hm2, hl, jsTruthy_none, jPackages_jpackages, jsStr_some]

theorem c1_witness :
    jsTruthy (some "tok" : Option String) = true ∧
    jsTruthy (getItem ([] : Storage) "daml_package_id") = false ∧
    createSimpleToken "i" "o" 5
        ⟨⟨some "tok", none, none, []⟩,
         Response.net :: Response.http true "" (.jpackages ["p1", "p2"]) ::
           [Response.http false "Cannot resolve x" .jnull,
            Response.http true "done" (.jcontracts [])], []⟩
      = claimCandidateLoop "i" "o" 5 (["p1", "p2"] : List String).length
          (["p1", "p2"] : List String).reverse
          ⟨⟨some "tok", none, none, []⟩,
           [Response.http false "Cannot resolve x" .jnull,
            Response.http true "done" (.jcontracts [])],
           [queryRequest (some "tok") [], packagesRequest (some "tok")]⟩ ∧
    jsTruthy (getItem ([("daml_package_id", "pkg")] : Storage) "daml_package_id") = true ∧
    createSimpleToken "i" "o" 5
        ⟨⟨some "tok", none, none, [("daml_package_id", "pkg")]⟩,
         Response.http false "Cannot resolve y" .jnull ::
           Response.http true "" (.jpackages []) :: [], []⟩
      = claimCandidateLoop "i" "o" 5 ([] : List String).length ([] : List String).reverse
          ⟨{ (⟨some "tok", none, none, [("daml_package_id", "pkg")]⟩ : ClientState) with
              storage := removeItem [("daml_package_id", "pkg")] "daml_package_id" },
           [],
           [createRequest (some "tok") ("pkg" ++ ":SimpleToken:SimpleToken")
              (mkPayload "i" "o" 5),
            packagesRequest (some "tok")]⟩ :=
  ⟨by decide, by decide,
   (c1_createSimpleToken_discovery).1 ⟨some "tok", none, none, []⟩ "i" "o" 5
     ["p1", "p2"]
     [Response.http false "Cannot resolve x" .jnull,
      Response.http true "done" (.jcontracts [])] "" (by decide) (by decide),
   by decide,
   (c1_createSimpleToken_discovery).2 ⟨some "tok", none, none, [("daml_package_id", "pkg")]⟩
     "i" "o" 5 "pkg" [] [] "Cannot resolve y" "" .jnull
     (by decide) (by decide) (by decide) (by decide)⟩

theorem probePackages_stores (l : List String) :
    ∀ (w : World) (p : String), (probePackages l w).1 = Except.ok (some p) →
      getItem (probePackages l w).2.cs.storage "daml_package_id" = some p := by
  induction l with
  | nil =>
    intro w p h
    simp [probePackages] at h
  | cons pkgId rest ih =>
    intro w p h
    unfold probePackages at h ⊢
    rcases hf : fetch (queryRequest w.cs.token
        [pkgId ++ ":SimpleToken:SimpleToken"]) w with ⟨res, w1⟩
    rw [hf] at h
    cases res with
    | error e => exact ih w1 p h
    | ok resp =>
      dsimp only at h ⊢
      by_cases hcond : (resp.ok || (!(jsIncludes resp.text "Cannot resolve") &&
          !(jsIncludes resp.text "unknownTemplateIds"))) = true
      · rw [if_pos hcond] at h ⊢
        have hpk : pkgId = p := by
          simpa using h
        subst hpk
        exact getItem_setItem_same w1.cs.storage "daml_package_id" pkgId
      · rw [if_neg hcond] at h ⊢
        exact ih w1 p h

theorem findPackageIdBody_stores (w : World) (p : String) :
    (findPackageIdBody w).1 = Except.ok (some p) →
    getItem (findPackageIdBody w).2.cs.storage "daml_package_id" = some p := by
  intro h
  unfold findPackageIdBody at h ⊢
  rcases hf : fetch (queryRequest w.cs.token []) w with ⟨res, w1⟩
  rw [hf] at h
  cases res with
  | error e => simp at h
  | ok resp =>
    dsimp only at h ⊢
    rcases hext : (if resp.ok then
        List.findSome? extractPkg (jContracts resp.json) else none) with _ | packageId
    · rw [hext] at h
      rcases hg : getPackages w1 with ⟨res2, w2⟩
      rw [hg] at h
      cases res2 with
      | error e => simp at h
      | ok packagesData => exact probePackages_stores (jPackages packagesData) w2 p h
    · rw [hext] at h
      have hpk : packageId = p := by
        simpa using h
      subst hpk
      exact getItem_setItem_same w1.cs.storage "daml_package_id" packageId

theorem findPackageId_stores (w : World) (p : String) :
    (findPackageId w).1 = Except.ok (some p) →
    getItem (findPackageId w).2.cs.storage "daml_package_id" = some p := by
  intro h
  unfold findPackageId at h ⊢
  split at h
  · split
    · simpa using h
    · simp_all
  · split
    · simp_all
    · rcases hb : findPackageIdBody w with ⟨res, w1⟩
      rw [hb] at h
      cases res with
      | ok r =>
        have hr : r = some p := by
          simpa using h
        subst hr
        have hs := findPackageIdBody_stores w p (by rw [hb])
        rw [hb] at hs
        exact hs
      | error e => simp at h

theorem login_stores (mkJwt : String → Option String → String) (userId : String)
    (w : World) (tok : String) :
    (login mkJwt userId w).1 = Except.ok tok →
    getItem (login mkJwt userId w).2.cs.storage "daml_token" = some tok ∧
    getItem (login mkJwt userId w).2.cs.storage "daml_user_id" = some userId ∧
    (∃ p, getItem (login mkJwt userId w).2.cs.storage "daml_party_identifier" = some p) := by
  unfold login
  split
  next e w1 heq =>
    intro h
    simp at h
  next resp w1 heq =>
    split
    · intro h
      simp at h
    · split
      · intro h
        simp at h
      next userParty hfind =>
        split
        next e w2 heq2 =>
          intro h
          simp at h
        next test w2 heq2 =>
          split
          · intro h
            simp at h
          · intro h
            have htok : mkJwt userId userParty.identifier = tok := by
              simpa using h
            refine ⟨?_, ?_, ⟨jsUndef userParty.identifier, ?_⟩⟩
            · show getItem (setItem (setItem (setItem w2.cs.storage "daml_token"
                (mkJwt userId userParty.identifier)) "daml_user_id" userId)
                "daml_party_identifier" (jsUndef userParty.identifier)) "daml_token"
                = some tok
              rw [getItem_setItem_other _ _ _ _ (by decide),
                  getItem_setItem_other _ _ _ _ (by decide),
                  getItem_setItem_same, htok]
            · show getItem (setItem (setItem (setItem w2.cs.storage "daml_token"
                (mkJwt userId userParty.identifier)) "daml_user_id" userId)
                "daml_party_identifier" (jsUndef userParty.identifier)) "daml_user_id"
                = some userId
              rw [getItem_setItem_other _ _ _ _ (by decide), getItem_setItem_same]
            · show getItem (setItem (setItem (setItem w2.cs.storage "daml_token"
                (mkJwt userId userParty.identifier)) "daml_user_id" userId)
                "daml_party_identifier" (jsUndef userParty.identifier))
                "daml_party_identifier" = some (jsUndef userParty.identifier)
              rw [getItem_setItem_same]

/-- C5 counterexample: createSimpleToken, which is neither logout nor
the explicit cache-clear control, removes the daml_package_id entry when
the cached package id fails its create with a Cannot resolve error — the
entry is present before the call and gone afterwards. -/
theorem c5_counterexample :
    (ApiOp.createTokenOp "a" "b" 1).isLogoutOp = false ∧
    getItem ([("daml_package_id", "pkg")] : Storage) "daml_package_id" = some "pkg" ∧
    getItem (runApiOp (.createTokenOp "a" "b" 1)
        ⟨⟨some "tok", none, none, [("daml_package_id", "pkg")]⟩,
         [Response.http false "Cannot resolve z" .jnull,
          Response.http true "" (.jpackages [])], []⟩).2.cs.storage "daml_package_id"
      = none := by
  refine ⟨by decide, by decide, by decide⟩

/-- C5 amended: a successful login(userId) stores the bearer token, the
user id and the resolved party identifier under daml_token,
daml_user_id and daml_party_identifier; a findPackageId that returns a
package id leaves it stored under daml_package_id; and no client
operation removes any stored entry except logout (which removes exactly
the three session keys), the explicit cache-clear control, and — beyond
the original claim — createSimpleToken, which clears daml_package_id
when the cached package id fails its create with a template-resolution
error.  Every operation other than logout and createSimpleToken
preserves the presence of every stored entry, and createSimpleToken
preserves every entry other than daml_package_id. -/
theorem c5_session_storage :
    (∀ (mkJwt : String → Option String → String) (userId : String) (w : World)
        (tok : String),
      (login mkJwt userId w).1 = Except.ok tok →
      getItem (login mkJwt userId w).2.cs.storage "daml_token" = some tok ∧
      getItem (login mkJwt userId w).2.cs.storage "daml_user_id" = some userId ∧
      (∃ p, getItem (login mkJwt userId w).2.cs.storage "daml_party_identifier"
        = some p)) ∧
    (∀ (w : World) (p : String),
      (findPackageId w).1 = Except.ok (some p) →
      getItem (findPackageId w).2.cs.storage "daml_package_id" = some p) ∧
    (∀ (op : ApiOp) (w : World) (k : String),
      op.isLogoutOp = false → op.isCreateTokenOp = false →
      (getItem w.cs.storage k).isSome → (getItem (runApiOp op w).2.cs.storage k).isSome) ∧
    (∀ (issuer owner : String) (amount : Nat) (w : World) (k : String),
      k ≠ "daml_package_id" →
      (getItem w.cs.storage k).isSome →
      (getItem (createSimpleToken issuer owner amount w).2.cs.storage k).isSome) := by
  refine ⟨login_stores, findPackageId_stores, ?_, ?_⟩
  · intro op w k h1 h2 hk
    cases op with
    | loginOp mkJwt userId =>
      have hl := LoginOk_login mkJwt userId w
      simp only [runApiOp]
      rcases hg : login mkJwt userId w with ⟨res, w1⟩
      rw [hg] at hl
      cases res with
      | ok tok => exact hl.2 k hk
      | error e => exact hl.2 k hk
    | logoutOp => simp [ApiOp.isLogoutOp] at h1
    | packagesOp =>
      have hm := MOk_getPackages [] w
      simp only [runApiOp]
      rcases hg : getPackages w with ⟨res, w1⟩
      rw [hg] at hm
      cases res with
      | ok v => exact hm.2.2.2.2 k (List.not_mem_nil k) hk
      | error e => exact hm.2.2.2.2 k (List.not_mem_nil k) hk
    | findPkgOp =>
      have hm := MOk_findPackageId [] w
      simp only [runApiOp]
      rcases hg : findPackageId w with ⟨res, w1⟩
      rw [hg] at hm
      cases res with
      | ok v => exact hm.2.2.2.2 k (List.not_mem_nil k) hk
      | error e => exact hm.2.2.2.2 k (List.not_mem_nil k) hk
    | queryOp templateIds =>
      have hm := MOk_queryContracts [] templateIds w
      simp only [runApiOp]
      rcases hg : queryContracts templateIds w with ⟨res, w1⟩
      rw [hg] at hm
      cases res with
      | ok v => exact hm.2.2.2.2 k (List.not_mem_nil k) hk
      | error e => exact hm.2.2.2.2 k (List.not_mem_nil k) hk
    | createOp templateId payload =>
      have hm := MOk_createContract [] templateId payload w
      simp only [runApiOp]
      rcases hg : createContract templateId payload w with ⟨res, w1⟩
      rw [hg] at hm
      cases res with
      | ok v => exact hm.2.2.2.2 k (List.not_mem_nil k) hk
      | error e => exact hm.2.2.2.2 k (List.not_mem_nil k) hk
    | exerciseOp contractId choice argument =>
      have hm := MOk_exerciseChoice [] contractId choice argument w
      simp only [runApiOp]
      rcases hg : exerciseChoice contractId choice argument w with ⟨res, w1⟩
      rw [hg] at hm
      cases res with
      | ok v => exact hm.2.2.2.2 k (List.not_mem_nil k) hk
      | error e => exact hm.2.2.2.2 k (List.not_mem_nil k) hk
    | createTokenOp issuer owner amount => simp [ApiOp.isCreateTokenOp] at h2
  · intro issuer owner amount w k hkne hk
    have hm := MOk_createSimpleToken ["daml_package_id"] (by simp) issuer owner amount w
    exact hm.2.2.2.2 k (by simp [hkne]) hk

theorem c5_witness :
    (login (fun u _ => "jwt." ++ u) "alice"
        ⟨⟨none, none, none, []⟩,
         [Response.http true "" (.jparties [⟨some "Alice", some "alice::ns"⟩]),
          Response.http true "" (.jparties [⟨some "Alice", some "alice::ns"⟩])], []⟩).1
      = Except.ok ("jwt." ++ "alice") ∧
    getItem (login (fun u _ => "jwt." ++ u) "alice"
        ⟨⟨none, none, none, []⟩,
         [Response.http true "" (.jparties [⟨some "Alice", some "alice::ns"⟩]),
          Response.http true "" (.jparties [⟨some "Alice", some "alice::ns"⟩])], []⟩).2.cs.storage
        "daml_token" = some ("jwt." ++ "alice") ∧
    (ApiOp.packagesOp.isLogoutOp = false) ∧
    (ApiOp.packagesOp.isCreateTokenOp = false) ∧
    (getItem ([("daml_package_id", "pkg")] : Storage) "daml_package_id").isSome ∧
    (getItem (runApiOp .packagesOp
        ⟨⟨some "tok", none, none, [("daml_package_id", "pkg")]⟩, [], []⟩).2.cs.storage
        "daml_package_id").isSome :=
  ⟨rfl,
   (c5_session_storage.1 (fun u _ => "jwt." ++ u) "alice"
      ⟨⟨none, none, none, []⟩,
       [Response.http true "" (.jparties [⟨some "Alice", some "alice::ns"⟩]),
        Response.http true "" (.jparties [⟨some "Alice", some "alice::ns"⟩])], []⟩
      ("jwt." ++ "alice") rfl).1,
   by decide, by decide, by decide,
   c5_session_storage.2.2.1 ApiOp.packagesOp
     ⟨⟨some "tok", none, none, [("daml_package_id", "pkg")]⟩, [], []⟩
     "daml_package_id" (by decide) (by decide) (by decide)⟩
